import Mathlib

/-!
# Verification of `nerfstudio/scripts/get_plane.py`

A shallow embedding of the plane-estimation script: the distributed launcher
(`launch`), the checkpoint-filename resolution, the per-camera back-projection,
the aggregate point cloud, and the least-squares plane fit
(`sklearn.linear_model.LinearRegression`), together with theorems settling the
specification's claims about them.

Real-number arithmetic of the source (Python floats / torch tensors) is
embedded over `ℚ`.  Where a claim turns on floating-point-specific behaviour
(IEEE division by zero producing non-finite values instead of raising), the
relevant control-flow fact — that no exception is raised and an output value is
still produced — is shared by the `ℚ` model and is what the theorems state.
-/

/-! ## The distributed launcher (`launch`, lines 87–121)

`launch` asserts `config is not None`, computes
`world_size = num_machines * num_devices_per_machine`, raises
`ValueError("world_size cannot be 0")` when it is zero, and when it is one runs
`main_func(config=config)` inside
`try ... except KeyboardInterrupt: CONSOLE.print(traceback.format_exc())
finally: profiler.flush_profiler(config.logging)`.
There is no branch for `world_size > 1`: the function falls through and
returns `None`.

The entry point's behaviour is abstracted by `EntryOutcome`: it either returns
normally, raises `KeyboardInterrupt`, or raises some other exception.  The
observable effects of one call to `launch` are recorded in `LaunchResult`:
how many times the entry point was invoked, whether the profiler flush ran,
whether a traceback was printed by `launch` itself, how many worker processes
were spawned, whether a rendezvous port was allocated (`_find_free_port` is
never called by `launch`), and which exception, if any, propagates to the
caller. -/

/-- Behaviour of the launched entry point (`main_func`). -/
inductive EntryOutcome where
  | ok : EntryOutcome
  | keyboardInterrupt : EntryOutcome
  | raisesError : EntryOutcome
deriving DecidableEq, Repr

/-- Exceptions that can propagate out of `launch`. -/
inductive LaunchError where
  /-- `assert config is not None` failed. -/
  | assertionError : LaunchError
  /-- `ValueError("world_size cannot be 0")`. -/
  | invalidConfiguration : LaunchError
  /-- an exception raised by `main_func` other than `KeyboardInterrupt`,
      propagating uncaught. -/
  | entryError : LaunchError
deriving DecidableEq, Repr

/-- Observable effects of one call to `launch`. -/
structure LaunchResult where
  /-- number of times `main_func` was invoked -/
  calls : Nat
  /-- `profiler.flush_profiler` executed -/
  flushed : Bool
  /-- `launch` printed a traceback (`CONSOLE.print(traceback.format_exc())`) -/
  tracePrinted : Bool
  /-- number of worker processes spawned -/
  spawned : Nat
  /-- a rendezvous port was allocated (`_find_free_port` called) -/
  portAllocated : Bool
  /-- exception propagating to the caller, if any -/
  err : Option LaunchError
deriving DecidableEq, Repr

/-- Shallow embedding of `launch` (source lines 87–121).  `configProvided`
models whether the `config` argument is `None`; `entry` models what
`main_func(config=config)` does when invoked. -/
def launch (numMachines numDevicesPerMachine : Nat) (configProvided : Bool)
    (entry : EntryOutcome) : LaunchResult :=
  if configProvided = false then
    -- `assert config is not None` raises before anything else runs
    ⟨0, false, false, 0, false, some .assertionError⟩
  else
    let worldSize := numMachines * numDevicesPerMachine
    if worldSize = 0 then
      -- `raise ValueError("world_size cannot be 0")`
      ⟨0, false, false, 0, false, some .invalidConfiguration⟩
    else if worldSize = 1 then
      -- try: main_func(config=config)
      -- except KeyboardInterrupt: CONSOLE.print(traceback.format_exc())
      -- finally: profiler.flush_profiler(config.logging)
      match entry with
      | .ok => ⟨1, true, false, 0, false, none⟩
      | .keyboardInterrupt => ⟨1, true, true, 0, false, none⟩
      | .raisesError => ⟨1, true, false, 0, false, some .entryError⟩
    else
      -- no `else` branch in the source: world_size > 1 falls through, returns None
      ⟨0, false, false, 0, false, none⟩

/-- C1: with the config provided and `numMachines * devicesPerMachine = 0`,
`launch` raises the zero-world-size `ValueError` (the spec's
`InvalidConfiguration`) and the entry point is called zero times. -/
theorem launch_worldSize_zero (numMachines numDevicesPerMachine : Nat)
    (entry : EntryOutcome) (h : numMachines * numDevicesPerMachine = 0) :
    (launch numMachines numDevicesPerMachine true entry).err
        = some .invalidConfiguration ∧
      (launch numMachines numDevicesPerMachine true entry).calls = 0 := by
  simp [launch, h]

theorem launch_worldSize_zero_witness :
    (0 : Nat) * 5 = 0 ∧
      ((launch 0 5 true .ok).err = some .invalidConfiguration ∧
        (launch 0 5 true .ok).calls = 0) :=
  ⟨by decide, launch_worldSize_zero 0 5 .ok (by decide)⟩

/-- Counterexample to C2: in the `worldSize == 1` path, an entry-point
exception other than `KeyboardInterrupt` is NOT caught — it propagates to the
caller and no traceback is printed by `launch` (the `except` clause names
`KeyboardInterrupt` only).  The flush still runs (`finally`). -/
theorem launch_otherError_not_caught :
    (launch 1 1 true .raisesError).err = some .entryError ∧
      (launch 1 1 true .raisesError).tracePrinted = false := by
  decide

/-- C2 amended: in the `worldSize == 1` path the profiler flush runs on every
exit path (success, `KeyboardInterrupt`, or any other exception); a
`KeyboardInterrupt` is caught with its traceback printed and does not
propagate; any other entry-point exception propagates uncaught with no
traceback printed by `launch`. -/
theorem launch_single_worker_cleanup (entry : EntryOutcome) :
    (launch 1 1 true entry).flushed = true ∧
      (entry = .keyboardInterrupt →
        (launch 1 1 true entry).err = none ∧
          (launch 1 1 true entry).tracePrinted = true) ∧
      (entry = .raisesError →
        (launch 1 1 true entry).err = some .entryError ∧
          (launch 1 1 true entry).tracePrinted = false) := by
  cases entry <;> simp [launch]

theorem launch_single_worker_cleanup_witness :
    (launch 1 1 true .keyboardInterrupt).flushed = true ∧
      (launch 1 1 true .keyboardInterrupt).err = none ∧
      (launch 1 1 true .keyboardInterrupt).tracePrinted = true :=
  ⟨(launch_single_worker_cleanup .keyboardInterrupt).1,
    ((launch_single_worker_cleanup .keyboardInterrupt).2.1 rfl).1,
    ((launch_single_worker_cleanup .keyboardInterrupt).2.1 rfl).2⟩

/-- C10: for `worldSize > 1`, `launch` returns normally without calling the
entry point, spawning workers, allocating a rendezvous port, flushing, or
raising: the multi-worker branch is absent from the source. -/
theorem launch_multi_worker_noop (numMachines numDevicesPerMachine : Nat)
    (entry : EntryOutcome) (h : 1 < numMachines * numDevicesPerMachine) :
    (launch numMachines numDevicesPerMachine true entry).err = none ∧
      (launch numMachines numDevicesPerMachine true entry).calls = 0 ∧
      (launch numMachines numDevicesPerMachine true entry).spawned = 0 ∧
      (launch numMachines numDevicesPerMachine true entry).portAllocated
        = false ∧
      (launch numMachines numDevicesPerMachine true entry).flushed = false := by
  have h0 : numMachines * numDevicesPerMachine ≠ 0 := by omega
  have h1 : numMachines * numDevicesPerMachine ≠ 1 := by omega
  simp [launch, h0, h1]

theorem launch_multi_worker_noop_witness :
    1 < 2 * 3 ∧
      ((launch 2 3 true .ok).err = none ∧
        (launch 2 3 true .ok).calls = 0 ∧
        (launch 2 3 true .ok).spawned = 0 ∧
        (launch 2 3 true .ok).portAllocated = false ∧
        (launch 2 3 true .ok).flushed = false) :=
  ⟨by decide, launch_multi_worker_noop 2 3 .ok (by decide)⟩

/-! ## Per-camera back-projection (`plane_estimation`, lines 170–193)

For camera `i` the source computes, over parallel tensors `x = ray_indices[i][2]`
(columns), `y = ray_indices[i][1]` (rows) and `depth = output[i]`:
```
X = (x - cx) * depth / fx
Y = (y - cy) * depth / fy
Z = depth
camera_xyz = stack([X, Y, Z, 1])
world_coordinates = (c2w @ camera_xyz.T).T[..., :3]
transformed = (transform_matrix @ [world_coordinates, 1].T).T[..., :3]
scaled = transformed * scale_factor
```
Division is embedded as `ℚ` division (total, with `q / 0 = 0`); the source's
tensor division by zero yields non-finite IEEE floats.  In neither semantics
does an exception occur, and the source contains no `fx`/`fy` validation. -/

/-- A 3D point (one row of a point cloud). -/
structure Vec3 where
  x : ℚ
  y : ℚ
  z : ℚ
deriving DecidableEq, Repr

/-- A 3×4 affine transform acting on homogeneous points `[x, y, z, 1]`
(the shape of nerfstudio `camera_to_worlds` and dataparser transforms). -/
structure Mat34 where
  a00 : ℚ
  a01 : ℚ
  a02 : ℚ
  a03 : ℚ
  a10 : ℚ
  a11 : ℚ
  a12 : ℚ
  a13 : ℚ
  a20 : ℚ
  a21 : ℚ
  a22 : ℚ
  a23 : ℚ
deriving DecidableEq, Repr

/-- `M · [v, 1]`, dropping the homogeneous coordinate. -/
def Mat34.apply (m : Mat34) (v : Vec3) : Vec3 :=
  ⟨m.a00 * v.x + m.a01 * v.y + m.a02 * v.z + m.a03,
   m.a10 * v.x + m.a11 * v.y + m.a12 * v.z + m.a13,
   m.a20 * v.x + m.a21 * v.y + m.a22 * v.z + m.a23⟩

/-- The identity affine transform. -/
def idMat : Mat34 := ⟨1, 0, 0, 0, 0, 1, 0, 0, 0, 0, 1, 0⟩

/-- Back-projection of one camera's samples to scaled, normalized world points
(source lines 172–193).  The three lists are the parallel per-sample tensors:
depth values, pixel rows (`ray_indices[i][1]`) and pixel columns
(`ray_indices[i][2]`). -/
def backProjectCamera (fx fy cx cy : ℚ) (c2w : Mat34)
    (depth rayRow rayCol : List ℚ) (transform : Mat34) (scale : ℚ) :
    List Vec3 :=
  (rayCol.zip (rayRow.zip depth)).map fun s =>
    let X := (s.1 - cx) * s.2.2 / fx
    let Y := (s.2.1 - cy) * s.2.2 / fy
    let Z := s.2.2
    let world := c2w.apply ⟨X, Y, Z⟩
    let transformed := transform.apply world
    ⟨transformed.x * scale, transformed.y * scale, transformed.z * scale⟩

/-- Counterexample to C3: with `fx = fy = 1`, `cx = cy = 0`, identity
camera-to-world and normalization and scale factor 1, a sample with column 3,
row 4 and depth 2 back-projects to `(6, 8, 2) = (col·depth, row·depth, depth)`,
not to `(3, 4, 2) = (col, row, depth)`. -/
theorem backProject_identity_not_col_row_depth :
    backProjectCamera 1 1 0 0 idMat [2] [4] [3] idMat 1 = [⟨6, 8, 2⟩] ∧
      (⟨6, 8, 2⟩ : Vec3) ≠ ⟨3, 4, 2⟩ := by
  constructor
  · norm_num [backProjectCamera, idMat, Mat34.apply, Vec3.mk.injEq]
  · simp only [ne_eq, Vec3.mk.injEq]
    norm_num

/-- C3 amended: with `fx = fy = 1`, `cx = cy = 0`, identity camera-to-world
and normalization and scale factor 1, the output point for every sample `k`
is `[rayCol[k]·depth[k], rayRow[k]·depth[k], depth[k]]` exactly (the source
multiplies the centred pixel coordinate by the depth before dividing by the
focal length). -/
theorem backProject_identity_eq (depth rayRow rayCol : List ℚ)
    (hr : rayRow.length = depth.length) (hc : rayCol.length = depth.length) :
    backProjectCamera 1 1 0 0 idMat depth rayRow rayCol idMat 1
      = (rayCol.zip (rayRow.zip depth)).map
          (fun s => ⟨s.1 * s.2.2, s.2.1 * s.2.2, s.2.2⟩) := by
  unfold backProjectCamera
  refine List.map_congr_left fun s _ => ?_
  simp only [Mat34.apply, idMat, Vec3.mk.injEq]
  refine ⟨by ring, by ring, by ring⟩

theorem backProject_identity_eq_witness :
    ([(4 : ℚ), 5].length = [(2 : ℚ), 3].length ∧
        [(6 : ℚ), 7].length = [(2 : ℚ), 3].length) ∧
      backProjectCamera 1 1 0 0 idMat [2, 3] [4, 5] [6, 7] idMat 1
        = ([(6 : ℚ), 7].zip ([(4 : ℚ), 5].zip [2, 3])).map
            (fun s => ⟨s.1 * s.2.2, s.2.1 * s.2.2, s.2.2⟩) :=
  ⟨⟨by decide, by decide⟩,
    backProject_identity_eq [2, 3] [4, 5] [6, 7] (by decide) (by decide)⟩

/-- Counterexample to C4: with `fx = 0` the back-projection does not fail —
it still produces one output point per sample.  The source has no intrinsics
validation; `(x - cx) * depth / fx` is a torch tensor division, which on a
zero divisor yields non-finite floats (inf/NaN) rather than raising, so no
`DegenerateIntrinsics` error exists and the job does not abort here. -/
theorem backProject_fx_zero_produces_points :
    (backProjectCamera 0 1 0 0 idMat [1, 2] [0, 1] [3, 4] idMat 1).length
      = 2 := by
  decide

/-- C4 amended: for every camera with `fx = 0` (or any intrinsics at all),
back-projection raises no error and returns exactly one point per sample:
the division by zero is masked by tensor float semantics, not turned into a
`DegenerateIntrinsics` failure. -/
theorem backProject_fx_zero_no_error (fy cx cy : ℚ) (c2w : Mat34)
    (depth rayRow rayCol : List ℚ) (transform : Mat34) (scale : ℚ)
    (hr : rayRow.length = depth.length) (hc : rayCol.length = depth.length) :
    (backProjectCamera 0 fy cx cy c2w depth rayRow rayCol transform
        scale).length = depth.length := by
  simp [backProjectCamera, hr, hc]

theorem backProject_fx_zero_no_error_witness :
    ([(0 : ℚ), 1].length = [(1 : ℚ), 2].length ∧
        [(3 : ℚ), 4].length = [(1 : ℚ), 2].length) ∧
      (backProjectCamera 0 1 0 0 idMat [1, 2] [0, 1] [3, 4] idMat 1).length
        = [(1 : ℚ), 2].length :=
  ⟨⟨by decide, by decide⟩,
    backProject_fx_zero_no_error 1 0 0 idMat [1, 2] [0, 1] [3, 4] idMat 1
      (by decide) (by decide)⟩

/-! ## The aggregate point cloud (`plane_estimation`, lines 163–197)

The source iterates `for i in range(num_image)`, back-projects camera `i`'s
samples, appends the result to `world_xyz`, and finally concatenates
(`np.concatenate(..., axis=0)`).  Per-camera data (intrinsics, extrinsics, ray
indices) is the parallel content of `pipeline.datamanager.expanded_cameras[i]`
and `pipeline.datamanager.ray_indices[i]`; the depth tensors are the entries of
`output = pipeline.get_surface_detection(...)`. -/

/-- One camera's data: intrinsics, camera-to-world extrinsics, and the ray
indices (pixel rows and columns) of its depth samples. -/
structure CameraData where
  fx : ℚ
  fy : ℚ
  cx : ℚ
  cy : ℚ
  c2w : Mat34
  rayRow : List ℚ
  rayCol : List ℚ
deriving DecidableEq, Repr

/-- The aggregate point cloud: back-project every camera against its depth
output and concatenate (source lines 169–197). -/
def worldPoints (cams : List CameraData) (outputs : List (List ℚ))
    (transform : Mat34) (scale : ℚ) : List Vec3 :=
  ((cams.zip outputs).map fun p =>
    backProjectCamera p.1.fx p.1.fy p.1.cx p.1.cy p.1.c2w p.2
      p.1.rayRow p.1.rayCol transform scale).flatten

/-- Scaling enters the back-projection only as the final per-point
multiplication, so the per-camera output is homogeneous of degree 1 in the
scale factor. -/
theorem backProjectCamera_scale (fx fy cx cy : ℚ) (c2w : Mat34)
    (depth rayRow rayCol : List ℚ) (transform : Mat34) (scale : ℚ) :
    backProjectCamera fx fy cx cy c2w depth rayRow rayCol transform scale
      = (backProjectCamera fx fy cx cy c2w depth rayRow rayCol transform
          1).map (fun v => ⟨scale * v.x, scale * v.y, scale * v.z⟩) := by
  unfold backProjectCamera
  rw [List.map_map]
  refine List.map_congr_left fun s _ => ?_
  simp only [Function.comp, Vec3.mk.injEq]
  refine ⟨by ring, by ring, by ring⟩

/-- The aggregate point cloud is homogeneous of degree 1 in the scale
factor. -/
theorem worldPoints_scale (cams : List CameraData) (outputs : List (List ℚ))
    (transform : Mat34) (scale : ℚ) :
    worldPoints cams outputs transform scale
      = (worldPoints cams outputs transform 1).map
          (fun v => ⟨scale * v.x, scale * v.y, scale * v.z⟩) := by
  unfold worldPoints
  rw [List.map_flatten, List.map_map]
  congr 1
  refine List.map_congr_left fun p _ => ?_
  exact backProjectCamera_scale _ _ _ _ _ _ _ _ _ _

/-- C9: for two cameras with 4 depth samples each, identity extrinsics and
identity normalization transform, the aggregate point cloud at scale factor 2
has exactly 8 points and equals the scale-factor-1 point cloud with every
point multiplied by exactly 2. -/
theorem worldPoints_two_cameras_scale_two (c1 c2 : CameraData)
    (o1 o2 : List ℚ)
    (hd1 : o1.length = 4) (hr1 : c1.rayRow.length = 4)
    (hc1 : c1.rayCol.length = 4)
    (hd2 : o2.length = 4) (hr2 : c2.rayRow.length = 4)
    (hc2 : c2.rayCol.length = 4)
    (hw1 : c1.c2w = idMat) (hw2 : c2.c2w = idMat) :
    (worldPoints [c1, c2] [o1, o2] idMat 2).length = 8 ∧
      worldPoints [c1, c2] [o1, o2] idMat 2
        = (worldPoints [c1, c2] [o1, o2] idMat 1).map
            (fun v => ⟨2 * v.x, 2 * v.y, 2 * v.z⟩) := by
  refine ⟨?_, worldPoints_scale [c1, c2] [o1, o2] idMat 2⟩
  simp [worldPoints, backProjectCamera, hd1, hr1, hc1, hd2, hr2, hc2]

theorem worldPoints_two_cameras_scale_two_witness :
    ((worldPoints
        [⟨1, 1, 0, 0, idMat, [0, 0, 1, 1], [0, 1, 0, 1]⟩,
          ⟨1, 1, 0, 0, idMat, [0, 0, 2, 2], [0, 2, 0, 2]⟩]
        [[1, 1, 1, 1], [1, 1, 1, 1]] idMat 2).length = 8 ∧
      worldPoints
          [⟨1, 1, 0, 0, idMat, [0, 0, 1, 1], [0, 1, 0, 1]⟩,
            ⟨1, 1, 0, 0, idMat, [0, 0, 2, 2], [0, 2, 0, 2]⟩]
          [[1, 1, 1, 1], [1, 1, 1, 1]] idMat 2
        = (worldPoints
            [⟨1, 1, 0, 0, idMat, [0, 0, 1, 1], [0, 1, 0, 1]⟩,
              ⟨1, 1, 0, 0, idMat, [0, 0, 2, 2], [0, 2, 0, 2]⟩]
            [[1, 1, 1, 1], [1, 1, 1, 1]] idMat 1).map
            (fun v => ⟨2 * v.x, 2 * v.y, 2 * v.z⟩)) :=
  worldPoints_two_cameras_scale_two _ _ _ _ rfl rfl rfl rfl rfl rfl rfl rfl

/-! ## The plane fit (`plane_estimation`, lines 199–207)

The source runs `reg = LinearRegression(); reg.fit(world_xyz_np[:, :2],
world_xyz_np[:, 2])` and reads `a, b = reg.coef_`, `d = reg.intercept_`,
`c = -1`.  `LinearRegression` with its default `fit_intercept=True` centres
the design matrix and the target, solves the least-squares problem on the
centred data (`scipy.linalg.lstsq`, an SVD-based solve), and sets the
intercept to `mean(z) - coef · mean(x, y)`.  On a full-rank centred design
this is the normal-equations solution of the 2-variable regression; on a
rank-deficient (collinear) design the SVD solve returns the minimum-norm
least-squares solution; on an empty input sklearn's input validation raises
(`Found array with 0 sample(s)`).  No other input is rejected: there is no
minimum-point-count or collinearity check anywhere in the source. -/

/-- Plane coefficients `(a, b, c, d)` of `a·x + b·y + c·z + d = 0`. -/
structure Plane where
  a : ℚ
  b : ℚ
  c : ℚ
  d : ℚ
deriving DecidableEq, Repr

/-- Sum of `f` over a point cloud. -/
def sumBy (pts : List Vec3) (f : Vec3 → ℚ) : ℚ := (pts.map f).sum

/-- Mean of the x coordinates. -/
def meanX (pts : List Vec3) : ℚ := sumBy pts (·.x) / pts.length

/-- Mean of the y coordinates. -/
def meanY (pts : List Vec3) : ℚ := sumBy pts (·.y) / pts.length

/-- Mean of the z coordinates. -/
def meanZ (pts : List Vec3) : ℚ := sumBy pts (·.z) / pts.length

/-- Centred second moment `Σ (x - mean x)²`. -/
def sxx (pts : List Vec3) : ℚ :=
  sumBy pts (fun p => (p.x - meanX pts) * (p.x - meanX pts))

/-- Centred cross moment `Σ (x - mean x)(y - mean y)`. -/
def sxy (pts : List Vec3) : ℚ :=
  sumBy pts (fun p => (p.x - meanX pts) * (p.y - meanY pts))

/-- Centred second moment `Σ (y - mean y)²`. -/
def syy (pts : List Vec3) : ℚ :=
  sumBy pts (fun p => (p.y - meanY pts) * (p.y - meanY pts))

/-- Centred cross moment `Σ (x - mean x)(z - mean z)`. -/
def sxz (pts : List Vec3) : ℚ :=
  sumBy pts (fun p => (p.x - meanX pts) * (p.z - meanZ pts))

/-- Centred cross moment `Σ (y - mean y)(z - mean z)`. -/
def syz (pts : List Vec3) : ℚ :=
  sumBy pts (fun p => (p.y - meanY pts) * (p.z - meanZ pts))

/-- Determinant of the 2×2 normal-equations matrix of the centred design. -/
def regDet (pts : List Vec3) : ℚ := sxx pts * syy pts - sxy pts * sxy pts

/-- Slope for x on a full-rank centred design (normal equations). -/
def fitA (pts : List Vec3) : ℚ :=
  (syy pts * sxz pts - sxy pts * syz pts) / regDet pts

/-- Slope for y on a full-rank centred design (normal equations). -/
def fitB (pts : List Vec3) : ℚ :=
  (sxx pts * syz pts - sxy pts * sxz pts) / regDet pts

/-- Common denominator of the minimum-norm solution on a rank-deficient
centred design (`‖Xᵀ X‖²` collapsed to moments). -/
def degenDen (pts : List Vec3) : ℚ :=
  sxx pts * sxx pts + 2 * (sxy pts * sxy pts) + syy pts * syy pts

/-- Slope for x of the minimum-norm least-squares solution on a
rank-deficient centred design (what the SVD-based `lstsq` returns). -/
def degenA (pts : List Vec3) : ℚ :=
  (sxx pts * sxz pts + sxy pts * syz pts) / degenDen pts

/-- Slope for y of the minimum-norm least-squares solution on a
rank-deficient centred design. -/
def degenB (pts : List Vec3) : ℚ :=
  (sxy pts * sxz pts + syy pts * syz pts) / degenDen pts

/-- Fitted plane coefficients `(a, b, -1, d)` for a nonempty point cloud:
`a, b` from the (possibly minimum-norm) least-squares solve on the centred
design, `d = mean z - a · mean x - b · mean y` (`reg.intercept_`), and `c`
fixed at `-1` (source line 207). -/
def fitPlaneCoeffs (pts : List Vec3) : Plane :=
  if regDet pts = 0 then
    ⟨degenA pts, degenB pts, -1,
      meanZ pts - degenA pts * meanX pts - degenB pts * meanY pts⟩
  else
    ⟨fitA pts, fitB pts, -1,
      meanZ pts - fitA pts * meanX pts - fitB pts * meanY pts⟩

/-- The only failure of the fitting stage: sklearn's input validation rejects
an empty sample array. -/
inductive FitError where
  | emptyInput : FitError
deriving DecidableEq, Repr

/-- The fitting stage (source lines 199–207): fails only on an empty input,
otherwise returns the least-squares coefficients. -/
def fitPlane (pts : List Vec3) : Except FitError Plane :=
  if pts = [] then .error .emptyInput else .ok (fitPlaneCoeffs pts)

/-- Counterexample to C5: two points (fewer than 3) are fitted without any
`InsufficientData` error, and three exactly collinear points are fitted
without any `DegeneratePlane` error — in both cases a plane equation IS
returned (the minimum-norm least-squares solution of the rank-deficient
system). -/
theorem fitPlane_small_and_collinear_ok :
    fitPlane [⟨0, 0, 0⟩, ⟨1, 0, 1⟩] = .ok ⟨1, 0, -1, 0⟩ ∧
      fitPlane [⟨0, 0, 0⟩, ⟨1, 1, 1⟩, ⟨2, 2, 2⟩] = .ok ⟨1/2, 1/2, -1, 0⟩ := by
  constructor <;>
    · norm_num [fitPlane, fitPlaneCoeffs, regDet, sxx, sxy, syy, sxz, syz,
        degenA, degenB, degenDen, meanX, meanY, meanZ, sumBy, Plane.mk.injEq]
      intro h
      simp at h

/-- C5 amended: the fit fails only on an empty point cloud (sklearn's input
validation rejects 0 samples); every nonempty point cloud — in particular one
with 1 or 2 points, or 3+ collinear points — is fitted without error, and the
empty cloud is the unique error case. -/
theorem fitPlane_error_only_empty (pts : List Vec3) (h : pts ≠ []) :
    fitPlane pts = .ok (fitPlaneCoeffs pts) ∧
      fitPlane [] = .error .emptyInput := by
  refine ⟨?_, rfl⟩
  unfold fitPlane
  rw [if_neg h]

theorem fitPlane_error_only_empty_witness :
    fitPlane [⟨0, 0, 0⟩, ⟨1, 0, 1⟩]
        = .ok (fitPlaneCoeffs [⟨0, 0, 0⟩, ⟨1, 0, 1⟩]) ∧
      fitPlane [] = .error .emptyInput :=
  fitPlane_error_only_empty [⟨0, 0, 0⟩, ⟨1, 0, 1⟩] (by simp)

/-! Linearity facts about `sumBy`, used to settle the exact-fit claim. -/

theorem sumBy_congr {pts : List Vec3} {f g : Vec3 → ℚ}
    (h : ∀ p ∈ pts, f p = g p) : sumBy pts f = sumBy pts g := by
  unfold sumBy
  rw [List.map_congr_left h]

theorem sumBy_add (pts : List Vec3) (f g : Vec3 → ℚ) :
    sumBy pts (fun p => f p + g p) = sumBy pts f + sumBy pts g := by
  induction pts with
  | nil => simp [sumBy]
  | cons a t ih => simp only [sumBy, List.map_cons, List.sum_cons] at ih ⊢; rw [ih]; ring

theorem sumBy_smul (c : ℚ) (pts : List Vec3) (f : Vec3 → ℚ) :
    sumBy pts (fun p => c * f p) = c * sumBy pts f := by
  induction pts with
  | nil => simp [sumBy]
  | cons a t ih => simp only [sumBy, List.map_cons, List.sum_cons] at ih ⊢; rw [ih]; ring

theorem sumBy_const (pts : List Vec3) (c : ℚ) :
    sumBy pts (fun _ => c) = pts.length * c := by
  induction pts with
  | nil => simp [sumBy]
  | cons a t ih =>
      simp only [sumBy, List.map_cons, List.sum_cons, List.length_cons] at ih ⊢
      rw [ih]
      push_cast
      ring

/-- On points satisfying `z = 2x + 3y + 5` exactly, the z mean is the same
affine function of the x and y means. -/
theorem meanZ_exact_fit (pts : List Vec3)
    (hz : ∀ p ∈ pts, p.z = 2 * p.x + 3 * p.y + 5) (hne : pts ≠ []) :
    meanZ pts = 2 * meanX pts + 3 * meanY pts + 5 := by
  have hn : (pts.length : ℚ) ≠ 0 := by
    have := List.length_pos.mpr hne
    positivity
  have hsum : sumBy pts (·.z)
      = 2 * sumBy pts (·.x) + 3 * sumBy pts (·.y) + pts.length * 5 := by
    rw [sumBy_congr hz]
    have e1 := sumBy_add pts (fun p => 2 * p.x + 3 * p.y) (fun _ => 5)
    have e2 := sumBy_add pts (fun p => 2 * p.x) (fun p => 3 * p.y)
    have e3 := sumBy_smul 2 pts (·.x)
    have e4 := sumBy_smul 3 pts (·.y)
    have e5 := sumBy_const pts 5
    calc sumBy pts (fun p => 2 * p.x + 3 * p.y + 5)
        = sumBy pts (fun p => 2 * p.x) + sumBy pts (fun p => 3 * p.y)
            + sumBy pts (fun _ => 5) := by rw [e1, e2]
      _ = 2 * sumBy pts (·.x) + 3 * sumBy pts (·.y) + pts.length * 5 := by
            rw [e3, e4, e5]
  unfold meanZ meanX meanY
  rw [hsum]
  field_simp
  ring

/-- On an exact fit `z = 2x + 3y + 5`, the centred z cross moments are the
same linear combinations of the centred x and y moments. -/
theorem moments_exact_fit (pts : List Vec3)
    (hz : ∀ p ∈ pts, p.z = 2 * p.x + 3 * p.y + 5) (hne : pts ≠ []) :
    sxz pts = 2 * sxx pts + 3 * sxy pts ∧
      syz pts = 2 * sxy pts + 3 * syy pts := by
  have hmz := meanZ_exact_fit pts hz hne
  constructor
  · unfold sxz sxx sxy
    have hp : ∀ p ∈ pts, (p.x - meanX pts) * (p.z - meanZ pts)
        = 2 * ((p.x - meanX pts) * (p.x - meanX pts))
          + 3 * ((p.x - meanX pts) * (p.y - meanY pts)) := by
      intro p hp
      rw [hz p hp, hmz]
      ring
    rw [sumBy_congr hp,
      sumBy_add pts (fun p => 2 * ((p.x - meanX pts) * (p.x - meanX pts)))
        (fun p => 3 * ((p.x - meanX pts) * (p.y - meanY pts))),
      sumBy_smul 2 pts (fun p => (p.x - meanX pts) * (p.x - meanX pts)),
      sumBy_smul 3 pts (fun p => (p.x - meanX pts) * (p.y - meanY pts))]
  · unfold syz sxy syy
    have hp : ∀ p ∈ pts, (p.y - meanY pts) * (p.z - meanZ pts)
        = 2 * ((p.x - meanX pts) * (p.y - meanY pts))
          + 3 * ((p.y - meanY pts) * (p.y - meanY pts)) := by
      intro p hp
      rw [hz p hp, hmz]
      ring
    rw [sumBy_congr hp,
      sumBy_add pts (fun p => 2 * ((p.x - meanX pts) * (p.y - meanY pts)))
        (fun p => 3 * ((p.y - meanY pts) * (p.y - meanY pts))),
      sumBy_smul 2 pts (fun p => (p.x - meanX pts) * (p.y - meanY pts)),
      sumBy_smul 3 pts (fun p => (p.y - meanY pts) * (p.y - meanY pts))]

/-- C6: the fit is the ordinary-least-squares regression of z on (x, y) with
`c` fixed at `-1`: on every point cloud whose points exactly satisfy
`z = 2x + 3y + 5` and whose centred design is full rank, it returns exactly
`a = 2, b = 3, c = -1, d = 5` (exact over ℚ, hence within any floating-point
tolerance). -/
theorem fitPlane_exact_plane (pts : List Vec3)
    (hz : ∀ p ∈ pts, p.z = 2 * p.x + 3 * p.y + 5)
    (hdet : regDet pts ≠ 0) :
    fitPlane pts = .ok ⟨2, 3, -1, 5⟩ := by
  have hne : pts ≠ [] := by
    rintro rfl
    exact hdet (by simp [regDet, sxx, sxy, syy, sumBy])
  have hmz := meanZ_exact_fit pts hz hne
  obtain ⟨h1, h2⟩ := moments_exact_fit pts hz hne
  have ha : fitA pts = 2 := by
    unfold fitA
    rw [h1, h2, div_eq_iff hdet]
    unfold regDet
    ring
  have hb : fitB pts = 3 := by
    unfold fitB
    rw [h1, h2, div_eq_iff hdet]
    unfold regDet
    ring
  unfold fitPlane
  rw [if_neg hne]
  unfold fitPlaneCoeffs
  rw [if_neg hdet, ha, hb, hmz]
  simp only [Except.ok.injEq, Plane.mk.injEq]
  refine ⟨trivial, trivial, trivial, by ring⟩

theorem fitPlane_exact_plane_witness :
    fitPlane [⟨0, 0, 5⟩, ⟨1, 0, 7⟩, ⟨0, 1, 8⟩] = .ok ⟨2, 3, -1, 5⟩ :=
  fitPlane_exact_plane [⟨0, 0, 5⟩, ⟨1, 0, 7⟩, ⟨0, 1, 8⟩]
    (by
      intro p hp
      simp only [List.mem_cons, List.not_mem_nil, or_false] at hp
      rcases hp with rfl | rfl | rfl <;> norm_num)
    (by norm_num [regDet, sxx, sxy, syy, meanX, meanY, sumBy])

/-! ## Checkpoint resolution (`plane_estimation`, lines 132–139)

With a load directory and no explicit step, the source runs
```
load_step = sorted(int(x[x.find("-") + 1 : x.find(".")]) for x in os.listdir(load_dir))[-1]
load_path = load_dir / f"step-{load_step:09d}.ckpt"
```
`str.find` returns the first index of the character or `-1`; the Python slice
`x[i+1 : j]` is modelled with Python's negative-index and clamping rules;
`int(...)` accepts a nonempty digit string and raises `ValueError` otherwise
(modelled as `none`); `sorted(...)[-1]` is the maximum and raises `IndexError`
on an empty directory (modelled as `none`); `f"step-{n:09d}.ckpt"` zero-pads
the step to 9 digits. -/

/-- Python `s.find(c)`: index of the first occurrence, or `-1`. -/
def pyFind (cs : List Char) (c : Char) : Int :=
  match cs.findIdx? (fun a => a = c) with
  | some i => (i : Int)
  | none => -1

/-- Python slice `s[i : j]` on a character list: negative indices count from
the end, and the bounds are clamped to the string. -/
def pySlice (cs : List Char) (i j : Int) : List Char :=
  let n : Int := cs.length
  let ii := if i < 0 then i + n else i
  let jj := if j < 0 then j + n else j
  (cs.take jj.toNat).drop ii.toNat

/-- Value of a decimal digit, `none` on any other character. -/
def digitVal? (c : Char) : Option Nat :=
  if 48 ≤ c.toNat ∧ c.toNat ≤ 57 then some (c.toNat - 48) else none

/-- Python `int(s)` on the slices arising here: a nonempty string of decimal
digits parses (leading zeros allowed); anything else raises `ValueError`
(`none`). -/
def digitsToNat? (cs : List Char) : Option Nat :=
  if cs.isEmpty then none
  else cs.foldlM (fun acc c => (digitVal? c).map fun d => acc * 10 + d) 0

/-- `int(x[x.find("-") + 1 : x.find(".")])` for one filename. -/
def stepOf (name : String) : Option Nat :=
  let cs := name.toList
  digitsToNat? (pySlice cs (pyFind cs '-' + 1) (pyFind cs '.'))

/-- `f"step-{n:09d}.ckpt"` without the directory prefix. -/
def checkpointName (n : Nat) : String :=
  let s := toString n
  "step-" ++ String.mk (List.replicate (9 - s.length) '0') ++ s ++ ".ckpt"

/-- Checkpoint selection when no explicit step is given (source lines
134–138): parse the step out of every filename, take the largest, and format
the checkpoint filename from it.  `none` models the exceptions Python raises
on an unparsable filename or an empty directory. -/
def resolveCheckpoint (files : List String) : Option String :=
  match files.mapM stepOf with
  | none => none
  | some steps =>
    match steps.max? with
    | none => none
    | some m => some (checkpointName m)

/-- C7: a checkpoint directory containing `step-000000010.ckpt` and
`step-000000005.ckpt`, with no explicit step requested, resolves to
`step-000000010.ckpt` — the file with the numerically largest embedded step
(10 > 5). -/
theorem resolveCheckpoint_latest :
    resolveCheckpoint ["step-000000010.ckpt", "step-000000005.ckpt"]
        = some "step-000000010.ckpt" ∧
      stepOf "step-000000010.ckpt" = some 10 ∧
      stepOf "step-000000005.ckpt" = some 5 := by
  decide

/-! ## The estimation job (`plane_estimation`, lines 123–245)

After the externally-loaded state is in place, `plane_estimation` obtains one
depth output per camera, asserts `num_image == len(output)`, builds the
aggregate point cloud, fits the plane, prints the data manager's `vertices`
(`print(vertices)`, line 211) and prints the plane equation
(`CONSOLE.print(f"The equation of the plane is ...")`, line 245).  The
function body contains no `return` statement: Python returns `None` to the
caller on every successful run. -/

/-- The data-manager state consumed by the job: per-camera data, the
dataparser transform, the scale factor, and the reference bbox vertices. -/
structure DataManager where
  expandedCameras : List CameraData
  transformMatrix : Mat34
  scaleFactor : ℚ
  vertices : List Vec3
deriving DecidableEq, Repr

/-- Input of one job run: the data manager and the per-camera depth outputs
of `pipeline.get_surface_detection`. -/
structure JobInput where
  dm : DataManager
  output : List (List ℚ)
deriving DecidableEq, Repr

/-- Failures of one job run. -/
inductive JobError where
  /-- `assert num_image == len(output)` failed. -/
  | cameraCountMismatch : JobError
  /-- the fitting stage raised. -/
  | fitFailed : FitError → JobError
deriving DecidableEq, Repr

/-- Observable outcome of a successful job run: what was printed to the
console, and the value returned to the caller. -/
structure JobReport where
  /-- the plane equation printed on line 245 -/
  planePrinted : Plane
  /-- the vertex set printed on line 211 -/
  verticesPrinted : List Vec3
  /-- the Python return value: the body has no `return`, so always `None` -/
  returnValue : Option Plane
deriving DecidableEq, Repr

/-- Shallow embedding of `plane_estimation` after external state loading
(source lines 163–245). -/
def plane_estimation (job : JobInput) : Except JobError JobReport :=
  if job.dm.expandedCameras.length = job.output.length then
    match fitPlane (worldPoints job.dm.expandedCameras job.output
        job.dm.transformMatrix job.dm.scaleFactor) with
    | .error e => .error (.fitFailed e)
    | .ok plane => .ok ⟨plane, job.dm.vertices, none⟩
  else .error .cameraCountMismatch

/-- A concrete successful job: one identity camera, three non-collinear
back-projected points on the plane `z = 1`, one reference vertex. -/
def cJob : JobInput :=
  ⟨⟨[⟨1, 1, 0, 0, idMat, [0, 0, 1], [0, 1, 0]⟩], idMat, 1, [⟨9, 9, 9⟩]⟩,
    [[1, 1, 1]]⟩

theorem cJob_points :
    worldPoints [⟨1, 1, 0, 0, idMat, [0, 0, 1], [0, 1, 0]⟩] [[1, 1, 1]]
        idMat 1 = [⟨0, 0, 1⟩, ⟨1, 0, 1⟩, ⟨0, 1, 1⟩] := by
  norm_num [worldPoints, backProjectCamera, idMat, Mat34.apply,
    Vec3.mk.injEq]

theorem cJob_fit :
    fitPlane [⟨0, 0, 1⟩, ⟨1, 0, 1⟩, ⟨0, 1, 1⟩] = .ok ⟨0, 0, -1, 1⟩ := by
  norm_num [fitPlane, fitPlaneCoeffs, regDet, fitA, fitB, sxx, sxy, syy,
    sxz, syz, meanX, meanY, meanZ, sumBy, Plane.mk.injEq]
  intro h
  simp at h

/-- Counterexample to C8: a successful run whose result value to the caller
is `none` — the fitted plane equation and the vertices are only printed
(`CONSOLE.print`, `print`), and the vertices are not part of any return
value, because `plane_estimation` has no `return` statement. -/
theorem plane_estimation_returns_none :
    plane_estimation cJob = .ok ⟨⟨0, 0, -1, 1⟩, [⟨9, 9, 9⟩], none⟩ ∧
      (JobReport.mk ⟨0, 0, -1, 1⟩ [⟨9, 9, 9⟩] none).returnValue = none := by
  refine ⟨?_, rfl⟩
  simp [plane_estimation, cJob, cJob_points, cJob_fit]

/-- C8 amended: on every successful run the job prints the fitted plane
equation (the output of the fitting stage on the aggregate point cloud) and
prints the data manager's reference vertices unmodified, but returns `None`
to the caller — no `PlaneEquation` is part of the result value. -/
theorem plane_estimation_report (job : JobInput) (r : JobReport)
    (h : plane_estimation job = .ok r) :
    r.returnValue = none ∧ r.verticesPrinted = job.dm.vertices ∧
      fitPlane (worldPoints job.dm.expandedCameras job.output
        job.dm.transformMatrix job.dm.scaleFactor) = .ok r.planePrinted := by
  unfold plane_estimation at h
  by_cases hc : job.dm.expandedCameras.length = job.output.length
  · rw [if_pos hc] at h
    cases hfit : fitPlane (worldPoints job.dm.expandedCameras job.output
        job.dm.transformMatrix job.dm.scaleFactor) with
    | error e => rw [hfit] at h; simp at h
    | ok p =>
        rw [hfit] at h
        simp only [Except.ok.injEq] at h
        subst h
        exact ⟨rfl, rfl, rfl⟩
  · rw [if_neg hc] at h
    simp at h

theorem plane_estimation_report_witness :
    (JobReport.mk ⟨0, 0, -1, 1⟩ [⟨9, 9, 9⟩] none).returnValue = none ∧
      (JobReport.mk ⟨0, 0, -1, 1⟩ [⟨9, 9, 9⟩] none).verticesPrinted
        = cJob.dm.vertices ∧
      fitPlane (worldPoints cJob.dm.expandedCameras cJob.output
          cJob.dm.transformMatrix cJob.dm.scaleFactor)
        = .ok (JobReport.mk ⟨0, 0, -1, 1⟩ [⟨9, 9, 9⟩] none).planePrinted :=
  plane_estimation_report cJob ⟨⟨0, 0, -1, 1⟩, [⟨9, 9, 9⟩], none⟩
    (by simp [plane_estimation, cJob, cJob_points, cJob_fit])
